import Mathlib

/-!
# Verification of the door-placement web app

Shallow embedding of the React application state and its handlers
(App component, data/doors, types) together with the helper
`dataURLtoFile` and the touch-drop coordinate mapping.  The browser
environment (fetch outcomes, the image-generation service outcome,
object-URL tokens, touch geometry) is passed in explicitly as data, so
every handler becomes a pure state-transition function.
-/

namespace DoorApp

/-- The `Door` interface from types.ts: an identifier, a display name and
an image URL. -/
structure Door where
  id : Nat
  name : String
  imageUrl : String
deriving Repr, DecidableEq

/-- A browser `File`: its name, MIME type, and byte contents. -/
structure File where
  name : String
  type : String
  content : List Nat
deriving Repr, DecidableEq

/-- The `predefinedDoors` array from data/doors.ts. -/
def predefinedDoors : List Door :=
  [ ⟨1, "Classic Oak Panel", "/assets/door-1.jpg"⟩,
    ⟨2, "Modern Steel Gray", "/assets/door-2.jpg"⟩,
    ⟨3, "Rustic Barn Door", "/assets/door-3.png"⟩,
    ⟨4, "Elegant Glass Insert", "/assets/door-4.jpg"⟩,
    ⟨5, "Minimalist White", "/assets/door-5.jpg"⟩ ]

/-- The image URLs of the five predefined doors. -/
def predefinedUrls : List String := predefinedDoors.map (fun d => d.imageUrl)

/-! ## dataURLtoFile and its base64 machinery

`dataURLtoFile` splits the data URL at commas, extracts the MIME type
from the header with the lazy regular expression `:(.*?);`, decodes the
second segment with `atob`, and builds a `File` from the decoded bytes.
`atob` implements the WHATWG forgiving-base64 decode and fails (the
browser throws an InvalidCharacterError) on invalid input. -/

/-- The 64 characters of the standard base64 alphabet, in value order. -/
def base64Alphabet : List Char :=
  [ 'A', 'B', 'C', 'D', 'E', 'F', 'G', 'H', 'I', 'J', 'K', 'L', 'M',
    'N', 'O', 'P', 'Q', 'R', 'S', 'T', 'U', 'V', 'W', 'X', 'Y', 'Z',
    'a', 'b', 'c', 'd', 'e', 'f', 'g', 'h', 'i', 'j', 'k', 'l', 'm',
    'n', 'o', 'p', 'q', 'r', 's', 't', 'u', 'v', 'w', 'x', 'y', 'z',
    '0', '1', '2', '3', '4', '5', '6', '7', '8', '9', '+', '/' ]

/-- Value of a base64 digit, none when the character is not in the
alphabet. -/
def base64CharValue (c : Char) : Option Nat :=
  let i := base64Alphabet.indexOf c
  if i < 64 then some i else none

/-- ASCII whitespace as stripped by forgiving-base64 decode. -/
def isAsciiWhitespace (c : Char) : Bool :=
  c = ' ' || c = '\t' || c = '\n' || c = '\x0c' || c = '\r'

/-- Bit-accumulating base64 decoder: consumes 6 bits per digit and emits
a byte whenever 8 or more bits have accumulated; leftover bits at the
end are discarded (as forgiving-base64 does for the 4 or 2 surplus
bits of a 2- or 3-digit final group). -/
def decodeB64 (cs : List Char) (buffer bits : Nat) : Option (List Nat) :=
  match cs with
  | [] => some []
  | c :: rest =>
    match base64CharValue c with
    | none => none
    | some v =>
      let buffer2 := buffer * 64 + v
      let bits2 := bits + 6
      if 8 ≤ bits2 then
        (decodeB64 rest (buffer2 % 2 ^ (bits2 - 8)) (bits2 - 8)).map
          (fun bs => buffer2 / 2 ^ (bits2 - 8) :: bs)
      else
        decodeB64 rest buffer2 bits2

/-- `atob`: the WHATWG forgiving-base64 decode.  Strips ASCII
whitespace, removes up to two trailing `=` when the length is a
multiple of four, rejects a length congruent to 1 mod 4 and any
character outside the base64 alphabet, and returns the decoded bytes. -/
def atob (s : String) : Option (List Nat) :=
  let data := s.toList.filter (fun c => !(isAsciiWhitespace c))
  let data :=
    if data.length % 4 = 0 then
      if data.reverse.take 2 = ['=', '='] then data.dropLast.dropLast
      else if data.reverse.take 1 = ['='] then data.dropLast
      else data
    else data
  if data.length % 4 = 1 then none
  else decodeB64 data 0 0

/-- Characters of a header up to the first `;`; none when no `;`
follows or a line terminator intervenes (the regex `.` does not match
line terminators, so such a start position cannot match). -/
def takeUntilSemi (cs : List Char) : Option (List Char) :=
  match cs with
  | [] => none
  | c :: rest =>
    if c = ';' then some []
    else if c = '\n' || c = '\r' || c = Char.ofNat 8232 || c = Char.ofNat 8233 then none
    else (takeUntilSemi rest).map (fun l => c :: l)

/-- Leftmost match of the lazy regex `:(.*?);` over a character list:
the first `:` that is followed (without an intervening line
terminator) by a `;` yields the characters strictly between them. -/
def parseMimeList (cs : List Char) : Option String :=
  match cs with
  | [] => none
  | c :: rest =>
    if c = ':' then
      match takeUntilSemi rest with
      | some grp => some (String.mk grp)
      | none => parseMimeList rest
    else parseMimeList rest

/-- `header.match(/:(.*?);/)` capture group, as a string function. -/
def parseMime (s : String) : Option String := parseMimeList s.toList

/-- JavaScript `str.split(<comma>)` on the character list: always returns at
least one segment, and an empty segment for each empty stretch between
commas. -/
def splitAtCommas (cs : List Char) : List (List Char) :=
  match cs with
  | [] => [[]]
  | c :: rest =>
    match splitAtCommas rest with
    | [] => [[]]
    | seg :: segs =>
      if c = ',' then [] :: seg :: segs else (c :: seg) :: segs

/-- The `dataURLtoFile` helper from App.tsx.  Exceptions become
`Except.error` with the thrown message (`atob` failure carries the
browser's InvalidCharacterError). -/
def dataURLtoFile (dataurl filename : String) : Except String File :=
  let arr := splitAtCommas dataurl.toList
  if arr.length < 2 then Except.error "Invalid data URL"
  else
    match parseMimeList (arr.headD []) with
    | none => Except.error "Could not parse MIME type from data URL"
    | some mime =>
      if mime = "" then Except.error "Could not parse MIME type from data URL"
      else
        match atob (String.mk (arr.getD 1 [])) with
        | none => Except.error "InvalidCharacterError"
        | some bytes => Except.ok ⟨filename, mime, bytes⟩

instance {ε α : Type} [DecidableEq ε] [DecidableEq α] :
    DecidableEq (Except ε α)
  | .ok a, .ok b =>
      if h : a = b then isTrue (by rw [h])
      else isFalse (by intro hc; cases hc; exact h rfl)
  | .ok _, .error _ => isFalse (by intro hc; cases hc)
  | .error _, .ok _ => isFalse (by intro hc; cases hc)
  | .error a, .error b =>
      if h : a = b then isTrue (by rw [h])
      else isFalse (by intro hc; cases hc; exact h rfl)

/-! ## Application state and handlers (App.tsx)

Every `useState` hook of the App component becomes a field.  Positions
and geometry are rational numbers (exact versions of the JS floats,
whose arithmetic here is only +, -, *, / on modest values). -/

/-- The `loadingMessages` array. -/
def loadingMessages : List String :=
  [ "Analyzing your door...",
    "Surveying your space...",
    "Describing placement location with AI...",
    "Crafting the perfect composition prompt...",
    "Generating photorealistic options...",
    "Assembling the final scene..." ]

/-- The App component's state hooks. -/
structure AppState where
  selectedDoor : Option Door
  doorImageFile : Option File
  sceneImage : Option File
  isLoading : Bool
  error : Option String
  loadingMessageIndex : Nat
  persistedOrbPosition : Option (ℚ × ℚ)
  debugImageUrl : Option String
  debugPrompt : Option String
  isDebugModalOpen : Bool
  isAddModalOpen : Bool
  isTouchDragging : Bool
  touchGhostPosition : Option (ℚ × ℚ)
  isHoveringDropZone : Bool
  touchOrbPosition : Option (ℚ × ℚ)
deriving Repr, DecidableEq

/-- The initial values of all `useState` hooks. -/
def initialState : AppState :=
  { selectedDoor := none, doorImageFile := none, sceneImage := none,
    isLoading := false, error := none, loadingMessageIndex := 0,
    persistedOrbPosition := none, debugImageUrl := none,
    debugPrompt := none, isDebugModalOpen := false, isAddModalOpen := false,
    isTouchDragging := false, touchGhostPosition := none,
    isHoveringDropZone := false, touchOrbPosition := none }

/-- `URL.createObjectURL`: per the File API a fresh object URL with the
`blob:` scheme, here derived from an opaque token chosen by the
browser. -/
def createObjectURL (token : Nat) : String := "blob:" ++ toString token

/-- `handleDoorImageUpload`: builds a door from the uploaded file with a
fresh object URL (`Date.now()` supplies the id). -/
def handleDoorImageUpload (s : AppState) (file : File) (nowId token : Nat) :
    AppState :=
  { s with error := none,
           doorImageFile := some file,
           selectedDoor := some ⟨nowId, file.name, createObjectURL token⟩,
           isAddModalOpen := false }

/-- Outcome of `fetch(door.imageUrl)` followed by `response.blob()`:
either a thrown error message, or a response with its `ok` flag and
blob type and bytes. -/
structure FetchResponse where
  ok : Bool
  blobType : String
  blobBytes : List Nat
deriving Repr, DecidableEq

/-- `url.split(<slash>).pop() || <door.jpg>` from
`handleSelectPredefinedDoor`: the last slash-separated segment of the
URL, or the default when that segment is empty. -/
def fileNameFromUrl (url : String) : String :=
  let lastSeg := ((url.toList.splitOnP (fun c => c = '/')).getLastD [])
  if lastSeg = [] then "door.jpg" else String.mk lastSeg

/-- `blob.type || <image/jpeg>`. -/
def fileTypeFromBlob (blobType : String) : String :=
  if blobType = "" then "image/jpeg" else blobType

/-- `handleSelectPredefinedDoor`: fetches the door image and on success
stores the resulting file and the door; a rejected fetch or a non-ok
response sets the error instead; `finally` clears the loading flag. -/
def handleSelectPredefinedDoor (s : AppState) (door : Door)
    (fetchOutcome : Except String FetchResponse) : AppState :=
  let s1 := { s with isLoading := true, error := none }
  let s2 :=
    match fetchOutcome with
    | Except.error msg =>
        { s1 with error := (some
            ("Could not load the selected door. Details: " ++ msg)) }
    | Except.ok resp =>
        if resp.ok then
          { s1 with
              doorImageFile := some ⟨fileNameFromUrl door.imageUrl,
                                     fileTypeFromBlob resp.blobType,
                                     resp.blobBytes⟩,
              selectedDoor := some door }
        else
          { s1 with error := (some
              ("Could not load the selected door. Details: " ++
                "Failed to load door image: " ++ door.name)) }
  { s2 with isLoading := false }

/-- Result of a successful `generateCompositeImage` call. -/
structure GenResult where
  finalImageUrl : String
  debugImageUrl : String
  finalPrompt : String
deriving Repr, DecidableEq

/-- `handleDoorDrop`: guards on the three required values, then runs the
single `generateCompositeImage` call (its outcome passed in as data)
and swaps the decoded response in as the new scene image; the `finally`
block clears the loading flag and the persisted orb.  Also returns the
number of `generateCompositeImage` calls made. -/
def handleDoorDrop (s : AppState) (position relativePosition : ℚ × ℚ)
    (genOutcome : Except String GenResult) (now : Nat) : AppState × Nat :=
  if s.doorImageFile.isNone || s.sceneImage.isNone || s.selectedDoor.isNone then
    ({ s with error := some "An unexpected error occurred. Please try again." }, 0)
  else
    let s1 := { s with persistedOrbPosition := some position,
                       isLoading := true, error := none }
    match genOutcome with
    | Except.ok r =>
        let s2 := { s1 with debugImageUrl := some r.debugImageUrl,
                            debugPrompt := some r.finalPrompt }
        let s3 :=
          match dataURLtoFile r.finalImageUrl
              ("generated-scene-" ++ toString now ++ ".jpeg") with
          | Except.ok f => { s2 with sceneImage := some f }
          | Except.error msg =>
              { s2 with error := some ("Failed to generate the image. " ++ msg) }
        ({ s3 with isLoading := false, persistedOrbPosition := none }, 1)
    | Except.error msg =>
        ({ s1 with error := some ("Failed to generate the image. " ++ msg),
                   isLoading := false, persistedOrbPosition := none }, 1)

/-- `handleReset`: back to the initial values of the eight persistent
hooks (the `useEffect` cleanups then revoke stale object URLs). -/
def handleReset (s : AppState) : AppState :=
  { s with selectedDoor := none, doorImageFile := none, sceneImage := none,
           error := none, isLoading := false, persistedOrbPosition := none,
           debugImageUrl := none, debugPrompt := none }

/-- `handleChangeDoor`. -/
def handleChangeDoor (s : AppState) : AppState :=
  { s with selectedDoor := none, doorImageFile := none,
           persistedOrbPosition := none, debugImageUrl := none,
           debugPrompt := none }

/-- `handleChangeScene`. -/
def handleChangeScene (s : AppState) : AppState :=
  { s with sceneImage := none, persistedOrbPosition := none,
           debugImageUrl := none, debugPrompt := none }

/-! ## Touch drag and drop -/

/-- A DOM bounding client rect. -/
structure Rect where
  left : ℚ
  top : ℚ
  width : ℚ
  height : ℚ
deriving Repr, DecidableEq

/-- Rendered size of an `object-contain` image inside its container, as
computed in `handleTouchEnd`: full container width when the image's
aspect ratio exceeds the container's, full container height
otherwise. -/
def renderedSize (naturalWidth naturalHeight containerWidth containerHeight : ℚ) :
    ℚ × ℚ :=
  let imageAspectRatio := naturalWidth / naturalHeight
  let containerAspectRatio := containerWidth / containerHeight
  if containerAspectRatio < imageAspectRatio then
    (containerWidth, containerWidth / imageAspectRatio)
  else
    (containerHeight * imageAspectRatio, containerHeight)

/-- The coordinate mapping of `handleTouchEnd`: offsets the drop point by
the centering margins and, when it falls inside the rendered image,
returns the percentage coordinates forwarded to `handleDoorDrop`. -/
def touchDropForward (naturalWidth naturalHeight containerWidth containerHeight
    clientX clientY rectLeft rectTop : ℚ) : Option (ℚ × ℚ) :=
  let rendered := renderedSize naturalWidth naturalHeight containerWidth containerHeight
  let renderedWidth := rendered.1
  let renderedHeight := rendered.2
  let offsetX := (containerWidth - renderedWidth) / 2
  let offsetY := (containerHeight - renderedHeight) / 2
  let dropX := clientX - rectLeft
  let dropY := clientY - rectTop
  let imageX := dropX - offsetX
  let imageY := dropY - offsetY
  if ¬(imageX < 0 ∨ renderedWidth < imageX ∨ imageY < 0 ∨ renderedHeight < imageY) then
    some ((imageX / renderedWidth) * 100, (imageY / renderedHeight) * 100)
  else none

/-- What the touchend handler finds under the finger: the drop zone's
bounding rect when `elementFromPoint` hits the scene uploader, and the
scene image element's natural dimensions when `sceneImgRef.current` is
set. -/
structure TouchEndEnv where
  dropZone : Option Rect
  sceneImg : Option (ℚ × ℚ)
deriving Repr, DecidableEq

/-- `handleTouchStart`: begins a touch drag (unless no door is
selected). -/
def handleTouchStart (s : AppState) (clientX clientY : ℚ) : AppState :=
  if s.selectedDoor.isNone then s
  else { s with isTouchDragging := true,
                touchGhostPosition := some (clientX, clientY) }

/-- `handleTouchMove`: moves the ghost and tracks the orb/hover state
depending on whether the finger is over the drop zone. -/
def handleTouchMove (s : AppState) (clientX clientY : ℚ)
    (dropZone : Option Rect) : AppState :=
  if !s.isTouchDragging then s
  else
    let s1 := { s with touchGhostPosition := some (clientX, clientY) }
    match dropZone with
    | some rect =>
        { s1 with touchOrbPosition := some (clientX - rect.left, clientY - rect.top),
                  isHoveringDropZone := true }
    | none => { s1 with isHoveringDropZone := false, touchOrbPosition := none }

/-- `handleTouchEnd`: when over the drop zone with a rendered scene
image, maps the touch point through `touchDropForward` and, inside the
image, records the `handleDoorDrop` invocation (drop position and
percentage coordinates); it then unconditionally clears all four
touch-drag hooks.  The forwarded call is returned as data (the React
callback runs asynchronously afterwards). -/
def handleTouchEnd (s : AppState) (clientX clientY : ℚ) (env : TouchEndEnv) :
    AppState × Option ((ℚ × ℚ) × (ℚ × ℚ)) :=
  if !s.isTouchDragging then (s, none)
  else
    let call :=
      match env.dropZone, env.sceneImg with
      | some rect, some nat =>
          (touchDropForward nat.1 nat.2 rect.width rect.height
              clientX clientY rect.left rect.top).map
            (fun rel => ((clientX - rect.left, clientY - rect.top), rel))
      | _, _ => none
    ({ s with isTouchDragging := false, touchGhostPosition := none,
              isHoveringDropZone := false, touchOrbPosition := none }, call)

/-! ## Object URL cleanup effects

The two `useEffect` hooks return cleanup closures that React runs with
the previously captured URL whenever the dependency changes and once
more at unmount.  A cleanup is modelled as the list of
`URL.revokeObjectURL` calls it performs, and a component lifetime as
the list of successive captured values, each of whose cleanups runs. -/

/-- Cleanup of the scene image URL effect. -/
def sceneUrlCleanup (sceneImageUrl : Option String) : List String :=
  match sceneImageUrl with
  | some url => [url]
  | none => []

/-- JavaScript `s.startsWith(pat)`: the first characters of `s` are
exactly `pat`. -/
def startsWithStr (s pat : String) : Bool :=
  decide (s.toList.take pat.toList.length = pat.toList)

/-- Cleanup of the door image URL effect: revokes only `blob:` URLs. -/
def doorUrlCleanup (doorImageUrl : Option String) : List String :=
  match doorImageUrl with
  | some url => if startsWithStr url "blob:" then [url] else []
  | none => []

/-- All revocations a cleanup performs over a component lifetime, one run
per captured dependency value (each change plus the final unmount). -/
def lifetimeRevocations (cleanup : Option String → List String)
    (capturedUrls : List (Option String)) : List String :=
  capturedUrls.flatMap cleanup

/-! ## Rendering -/

/-- The five mutually exclusive shapes `renderContent` can produce. -/
inductive View where
  | errorView
  | loadingDoor
  | doorSelection
  | sceneUpload
  | mainExperience
deriving Repr, DecidableEq

/-- `renderContent`, abstracted to which of its five returns fires. -/
def renderContent (s : AppState) : View :=
  if s.error.isSome then View.errorView
  else if s.isLoading && s.sceneImage.isNone then View.loadingDoor
  else if s.selectedDoor.isNone then View.doorSelection
  else if s.sceneImage.isNone then View.sceneUpload
  else View.mainExperience

/-! ## The application as a transition system

Each user interaction or effect firing is an event; the data a handler
reads from the environment (fetch outcome, generation outcome, fresh
tokens, touch geometry) rides on the event.  `selectPredefined` carries
an index because the carousel (`DoorSelector` with
`doors={predefinedDoors}`) only ever calls `onSelect` with an element
of `predefinedDoors`. -/

inductive Event where
  | uploadDoor (file : File) (nowId token : Nat)
  | selectPredefined (idx : Nat) (fetchOutcome : Except String FetchResponse)
  | setScene (file : File)
  | doorDrop (position relativePosition : ℚ × ℚ)
      (genOutcome : Except String GenResult) (now : Nat)
  | reset
  | changeDoor
  | changeScene
  | touchStart (clientX clientY : ℚ)
  | touchMove (clientX clientY : ℚ) (dropZone : Option Rect)
  | touchEnd (clientX clientY : ℚ) (env : TouchEndEnv)
  | loadingEffectStart
  | loadingTick
  | openAddModal
  | closeAddModal
  | openDebugModal
  | closeDebugModal

/-- One step of the application: dispatches the event to its handler.
The loading-message effect only installs its reset and its interval
while `isLoading && sceneImage` holds. -/
def step (s : AppState) : Event → AppState
  | Event.uploadDoor file nowId token => handleDoorImageUpload s file nowId token
  | Event.selectPredefined idx fetchOutcome =>
      match predefinedDoors[idx]? with
      | some door => handleSelectPredefinedDoor s door fetchOutcome
      | none => s
  | Event.setScene file => { s with sceneImage := some file }
  | Event.doorDrop position relativePosition genOutcome now =>
      (handleDoorDrop s position relativePosition genOutcome now).1
  | Event.reset => handleReset s
  | Event.changeDoor => handleChangeDoor s
  | Event.changeScene => handleChangeScene s
  | Event.touchStart clientX clientY => handleTouchStart s clientX clientY
  | Event.touchMove clientX clientY dropZone =>
      handleTouchMove s clientX clientY dropZone
  | Event.touchEnd clientX clientY env => (handleTouchEnd s clientX clientY env).1
  | Event.loadingEffectStart =>
      if s.isLoading && s.sceneImage.isSome then
        { s with loadingMessageIndex := 0 }
      else s
  | Event.loadingTick =>
      if s.isLoading && s.sceneImage.isSome then
        { s with loadingMessageIndex :=
            (s.loadingMessageIndex + 1) % loadingMessages.length }
      else s
  | Event.openAddModal => { s with isAddModalOpen := true }
  | Event.closeAddModal => { s with isAddModalOpen := false }
  | Event.openDebugModal => { s with isDebugModalOpen := true }
  | Event.closeDebugModal => { s with isDebugModalOpen := false }

/-- States the application can be in: the initial state and everything
the events produce from it. -/
inductive Reachable : AppState → Prop where
  | init : Reachable initialState
  | next {s : AppState} (hs : Reachable s) (e : Event) : Reachable (step s e)

/-! ## Theorems -/

/-- C10: handleReset restores the initial application state —
selectedDoor, doorImageFile, sceneImage, error, persistedOrbPosition,
debugImageUrl and debugPrompt all become null and isLoading becomes
false, so renderContent shows the door-selection state again. -/
theorem handleReset_restores_initial_state (s : AppState) :
    (handleReset s).selectedDoor = none ∧
    (handleReset s).doorImageFile = none ∧
    (handleReset s).sceneImage = none ∧
    (handleReset s).error = none ∧
    (handleReset s).persistedOrbPosition = none ∧
    (handleReset s).debugImageUrl = none ∧
    (handleReset s).debugPrompt = none ∧
    (handleReset s).isLoading = false ∧
    renderContent (handleReset s) = View.doorSelection := by
  simp [handleReset, renderContent]

/-- C7: after a touchend processed while a touch drag is active, all
ephemeral touch-drag state is idle again — whether or not the drop
landed in the drop zone or inside the rendered image. -/
theorem handleTouchEnd_clears_touch_state (s : AppState) (clientX clientY : ℚ)
    (env : TouchEndEnv) (hdrag : s.isTouchDragging = true) :
    (handleTouchEnd s clientX clientY env).1.isTouchDragging = false ∧
    (handleTouchEnd s clientX clientY env).1.touchGhostPosition = none ∧
    (handleTouchEnd s clientX clientY env).1.touchOrbPosition = none ∧
    (handleTouchEnd s clientX clientY env).1.isHoveringDropZone = false := by
  simp [handleTouchEnd, hdrag]

/-- Witness for C7 at a concrete dragging state and touch point. -/
theorem handleTouchEnd_clears_touch_state_witness :
    (handleTouchEnd { initialState with isTouchDragging := true } 1 2
        ⟨none, none⟩).1.isTouchDragging = false ∧
    (handleTouchEnd { initialState with isTouchDragging := true } 1 2
        ⟨none, none⟩).1.touchGhostPosition = none ∧
    (handleTouchEnd { initialState with isTouchDragging := true } 1 2
        ⟨none, none⟩).1.touchOrbPosition = none ∧
    (handleTouchEnd { initialState with isTouchDragging := true } 1 2
        ⟨none, none⟩).1.isHoveringDropZone = false :=
  handleTouchEnd_clears_touch_state { initialState with isTouchDragging := true }
    1 2 ⟨none, none⟩ rfl

/-- C3: handleDoorDrop makes exactly one generateCompositeImage call
when the door file, scene image and selected door are all present, and
none — setting the error message instead — when any is missing. -/
theorem handleDoorDrop_call_count (s : AppState) (position relativePosition : ℚ × ℚ)
    (genOutcome : Except String GenResult) (now : Nat) :
    (s.doorImageFile.isSome ∧ s.sceneImage.isSome ∧ s.selectedDoor.isSome →
      (handleDoorDrop s position relativePosition genOutcome now).2 = 1) ∧
    (s.doorImageFile = none ∨ s.sceneImage = none ∨ s.selectedDoor = none →
      (handleDoorDrop s position relativePosition genOutcome now).2 = 0 ∧
      (handleDoorDrop s position relativePosition genOutcome now).1.error =
        some "An unexpected error occurred. Please try again.") := by
  constructor
  · rintro ⟨hd, hs, hsel⟩
    obtain ⟨df, hdf⟩ := Option.isSome_iff_exists.mp hd
    obtain ⟨sf, hsf⟩ := Option.isSome_iff_exists.mp hs
    obtain ⟨d, hd2⟩ := Option.isSome_iff_exists.mp hsel
    cases genOutcome with
    | ok r =>
      simp only [handleDoorDrop, hdf, hsf, hd2, Option.isNone_some,
        Bool.or_self, Bool.false_or, Bool.or_false]
      split <;> simp_all
    | error msg => simp [handleDoorDrop, hdf, hsf, hd2]
  · intro hmiss
    have hguard : (s.doorImageFile.isNone || s.sceneImage.isNone ||
        s.selectedDoor.isNone) = true := by
      rcases hmiss with h | h | h <;> simp [h]
    simp [handleDoorDrop, hguard]

/-- Witness for C3 at a concrete empty state (no door, scene or file). -/
theorem handleDoorDrop_call_count_witness :
    (handleDoorDrop initialState (1, 2) (10, 20)
        (Except.error "boom") 7).2 = 0 ∧
    (handleDoorDrop initialState (1, 2) (10, 20)
        (Except.error "boom") 7).1.error =
      some "An unexpected error occurred. Please try again." :=
  (handleDoorDrop_call_count initialState (1, 2) (10, 20)
      (Except.error "boom") 7).2 (Or.inl rfl)

/-- C2: with door file, scene image and selected door present, a
successful generateCompositeImage response (a well-formed data URL) is
converted to a File that replaces the scene image, a thrown call
leaves the scene image unchanged and sets the error message, and in
both cases the finally block clears isLoading and the persisted orb. -/
theorem handleDoorDrop_swaps_scene (s : AppState)
    (position relativePosition : ℚ × ℚ)
    (genOutcome : Except String GenResult) (now : Nat)
    (hd : s.doorImageFile.isSome = true) (hs : s.sceneImage.isSome = true)
    (hsel : s.selectedDoor.isSome = true) :
    (∀ r : GenResult, genOutcome = Except.ok r →
      ∀ f : File, dataURLtoFile r.finalImageUrl
          ("generated-scene-" ++ toString now ++ ".jpeg") = Except.ok f →
        (handleDoorDrop s position relativePosition genOutcome now).1.sceneImage =
          some f) ∧
    (∀ msg : String, genOutcome = Except.error msg →
      (handleDoorDrop s position relativePosition genOutcome now).1.sceneImage =
        s.sceneImage ∧
      (handleDoorDrop s position relativePosition genOutcome now).1.error =
        some ("Failed to generate the image. " ++ msg)) ∧
    (handleDoorDrop s position relativePosition genOutcome now).1.isLoading = false ∧
    (handleDoorDrop s position relativePosition genOutcome now).1.persistedOrbPosition =
      none := by
  obtain ⟨df, hdf⟩ := Option.isSome_iff_exists.mp hd
  obtain ⟨sf, hsf⟩ := Option.isSome_iff_exists.mp hs
  obtain ⟨d, hd2⟩ := Option.isSome_iff_exists.mp hsel
  refine ⟨?succ, ?fail, ?fin⟩
  case succ =>
    rintro r rfl f hf
    simp [handleDoorDrop, hdf, hsf, hd2, hf]
  case fail =>
    rintro msg rfl
    simp [handleDoorDrop, hdf, hsf, hd2]
  case fin =>
    cases genOutcome with
    | ok r =>
      simp only [handleDoorDrop, hdf, hsf, hd2, Option.isNone_some,
        Bool.or_self, Bool.false_or, Bool.or_false]
      split <;> simp_all
    | error msg => simp [handleDoorDrop, hdf, hsf, hd2]

/-- Witness for C2: a concrete full state and a successful call whose
response is a well-formed data URL. -/
theorem handleDoorDrop_swaps_scene_witness :
    (handleDoorDrop
        { initialState with
            selectedDoor := some ⟨1, "Classic Oak Panel", "/assets/door-1.jpg"⟩,
            doorImageFile := some ⟨"door-1.jpg", "image/jpeg", [1]⟩,
            sceneImage := some ⟨"room.jpg", "image/jpeg", [2]⟩ }
        (1, 2) (10, 20)
        (Except.ok ⟨"data:image/jpeg;base64,AAEC", "dbg", "prompt"⟩)
        7).1.sceneImage =
      some ⟨"generated-scene-7.jpeg", "image/jpeg", [0, 1, 2]⟩ :=
  (handleDoorDrop_swaps_scene
      { initialState with
          selectedDoor := some ⟨1, "Classic Oak Panel", "/assets/door-1.jpg"⟩,
          doorImageFile := some ⟨"door-1.jpg", "image/jpeg", [1]⟩,
          sceneImage := some ⟨"room.jpg", "image/jpeg", [2]⟩ }
      (1, 2) (10, 20)
      (Except.ok ⟨"data:image/jpeg;base64,AAEC", "dbg", "prompt"⟩)
      7 rfl rfl rfl).1
    ⟨"data:image/jpeg;base64,AAEC", "dbg", "prompt"⟩ rfl
    ⟨"generated-scene-7.jpeg", "image/jpeg", [0, 1, 2]⟩ (by decide)

/-- C5: picking a predefined door fetches its image; on a successful ok
response both the fetched file and the door are stored, on a rejected
fetch or non-ok response an error is set and neither selectedDoor nor
doorImageFile changes, and the finally block clears isLoading either
way. -/
theorem handleSelectPredefinedDoor_spec (s : AppState) (door : Door)
    (fetchOutcome : Except String FetchResponse) :
    (handleSelectPredefinedDoor s door fetchOutcome).isLoading = false ∧
    (∀ resp : FetchResponse, fetchOutcome = Except.ok resp → resp.ok = true →
      (handleSelectPredefinedDoor s door fetchOutcome).doorImageFile =
        some ⟨fileNameFromUrl door.imageUrl, fileTypeFromBlob resp.blobType,
              resp.blobBytes⟩ ∧
      (handleSelectPredefinedDoor s door fetchOutcome).selectedDoor = some door) ∧
    (∀ resp : FetchResponse, fetchOutcome = Except.ok resp → resp.ok = false →
      (handleSelectPredefinedDoor s door fetchOutcome).selectedDoor =
        s.selectedDoor ∧
      (handleSelectPredefinedDoor s door fetchOutcome).doorImageFile =
        s.doorImageFile ∧
      (handleSelectPredefinedDoor s door fetchOutcome).error =
        some ("Could not load the selected door. Details: " ++
          "Failed to load door image: " ++ door.name)) ∧
    (∀ msg : String, fetchOutcome = Except.error msg →
      (handleSelectPredefinedDoor s door fetchOutcome).selectedDoor =
        s.selectedDoor ∧
      (handleSelectPredefinedDoor s door fetchOutcome).doorImageFile =
        s.doorImageFile ∧
      (handleSelectPredefinedDoor s door fetchOutcome).error =
        some ("Could not load the selected door. Details: " ++ msg)) := by
  refine ⟨?fin, ?succ, ?notok, ?fail⟩
  case fin =>
    cases fetchOutcome with
    | ok resp =>
      by_cases hok : resp.ok = true <;>
        simp [handleSelectPredefinedDoor, hok]
    | error msg => simp [handleSelectPredefinedDoor]
  case succ =>
    rintro resp rfl hok
    simp [handleSelectPredefinedDoor, hok]
  case notok =>
    rintro resp rfl hok
    simp [handleSelectPredefinedDoor, hok]
  case fail =>
    rintro msg rfl
    simp [handleSelectPredefinedDoor]

/-- Witness for C5: a successful fetch of the first predefined door. -/
theorem handleSelectPredefinedDoor_spec_witness :
    (handleSelectPredefinedDoor initialState
        ⟨1, "Classic Oak Panel", "/assets/door-1.jpg"⟩
        (Except.ok ⟨true, "image/jpeg", [9]⟩)).doorImageFile =
      some ⟨"door-1.jpg", "image/jpeg", [9]⟩ ∧
    (handleSelectPredefinedDoor initialState
        ⟨1, "Classic Oak Panel", "/assets/door-1.jpg"⟩
        (Except.ok ⟨true, "image/jpeg", [9]⟩)).selectedDoor =
      some ⟨1, "Classic Oak Panel", "/assets/door-1.jpg"⟩ := by
  have h := (handleSelectPredefinedDoor_spec initialState
      ⟨1, "Classic Oak Panel", "/assets/door-1.jpg"⟩
      (Except.ok ⟨true, "image/jpeg", [9]⟩)).2.1
      ⟨true, "image/jpeg", [9]⟩ rfl rfl
  refine ⟨?_, h.2⟩
  rw [h.1]
  exact congrArg some (by decide)

/-- C6: over a component lifetime, every captured scene object URL is
revoked by the scene effect's cleanup, every captured blob door URL is
revoked by the door effect's cleanup, and the door cleanup only ever
revokes URLs that start with `blob:` — a static asset path is never
revoked. -/
theorem object_url_cleanup_spec (capturedUrls : List (Option String)) :
    (∀ u : String, some u ∈ capturedUrls →
      u ∈ lifetimeRevocations sceneUrlCleanup capturedUrls) ∧
    (∀ u : String, some u ∈ capturedUrls → startsWithStr u "blob:" = true →
      u ∈ lifetimeRevocations doorUrlCleanup capturedUrls) ∧
    (∀ u : String, u ∈ lifetimeRevocations doorUrlCleanup capturedUrls →
      startsWithStr u "blob:" = true) := by
  refine ⟨?scene, ?door, ?onlyBlob⟩
  case scene =>
    intro u hu
    rw [lifetimeRevocations, List.mem_flatMap]
    exact ⟨some u, hu, by simp [sceneUrlCleanup]⟩
  case door =>
    intro u hu hblob
    rw [lifetimeRevocations, List.mem_flatMap]
    exact ⟨some u, hu, by simp [doorUrlCleanup, hblob]⟩
  case onlyBlob =>
    intro u hu
    rw [lifetimeRevocations, List.mem_flatMap] at hu
    obtain ⟨o, _, hmem⟩ := hu
    cases o with
    | none => simp [doorUrlCleanup] at hmem
    | some v =>
      by_cases hb : startsWithStr v "blob:" = true <;>
        simp [doorUrlCleanup, hb] at hmem
      exact hmem ▸ hb

/-- Witness for C6 on a concrete lifetime holding a blob URL, a static
asset path and an empty capture. -/
theorem object_url_cleanup_spec_witness :
    "blob:42" ∈ lifetimeRevocations sceneUrlCleanup
      [some "blob:42", some "/assets/door-1.jpg", none] ∧
    "blob:42" ∈ lifetimeRevocations doorUrlCleanup
      [some "blob:42", some "/assets/door-1.jpg", none] :=
  ⟨(object_url_cleanup_spec [some "blob:42", some "/assets/door-1.jpg", none]).1
      "blob:42" (by decide),
   (object_url_cleanup_spec [some "blob:42", some "/assets/door-1.jpg", none]).2.1
      "blob:42" (by decide) (by decide)⟩

/-! ### Preservation lemmas for the invariants -/

theorem handleDoorDrop_preserves (s : AppState) (p r : ℚ × ℚ)
    (o : Except String GenResult) (n : Nat) :
    (handleDoorDrop s p r o n).1.selectedDoor = s.selectedDoor ∧
    (handleDoorDrop s p r o n).1.loadingMessageIndex = s.loadingMessageIndex := by
  unfold handleDoorDrop
  split
  · exact ⟨rfl, rfl⟩
  · cases o with
    | error m => exact ⟨rfl, rfl⟩
    | ok res =>
      dsimp only
      split <;> exact ⟨rfl, rfl⟩

theorem handleSelectPredefinedDoor_preserves (s : AppState) (door : Door)
    (o : Except String FetchResponse) :
    (handleSelectPredefinedDoor s door o).loadingMessageIndex =
      s.loadingMessageIndex := by
  unfold handleSelectPredefinedDoor
  cases o with
  | error m => rfl
  | ok resp =>
    dsimp only
    split <;> rfl

theorem handleSelectPredefinedDoor_selectedDoor (s : AppState) (door : Door)
    (o : Except String FetchResponse) :
    (handleSelectPredefinedDoor s door o).selectedDoor = s.selectedDoor ∨
    (handleSelectPredefinedDoor s door o).selectedDoor = some door := by
  unfold handleSelectPredefinedDoor
  cases o with
  | error m => exact Or.inl rfl
  | ok resp =>
    dsimp only
    split
    · exact Or.inr rfl
    · exact Or.inl rfl

theorem handleTouchStart_preserves (s : AppState) (x y : ℚ) :
    (handleTouchStart s x y).selectedDoor = s.selectedDoor ∧
    (handleTouchStart s x y).loadingMessageIndex = s.loadingMessageIndex := by
  unfold handleTouchStart
  split <;> exact ⟨rfl, rfl⟩

theorem handleTouchMove_preserves (s : AppState) (x y : ℚ) (dz : Option Rect) :
    (handleTouchMove s x y dz).selectedDoor = s.selectedDoor ∧
    (handleTouchMove s x y dz).loadingMessageIndex = s.loadingMessageIndex := by
  unfold handleTouchMove
  split
  · exact ⟨rfl, rfl⟩
  · cases dz <;> exact ⟨rfl, rfl⟩

theorem handleTouchEnd_preserves (s : AppState) (x y : ℚ) (env : TouchEndEnv) :
    (handleTouchEnd s x y env).1.selectedDoor = s.selectedDoor ∧
    (handleTouchEnd s x y env).1.loadingMessageIndex = s.loadingMessageIndex := by
  unfold handleTouchEnd
  split <;> exact ⟨rfl, rfl⟩

theorem step_loadingMessageIndex (s : AppState) (e : Event) :
    (step s e).loadingMessageIndex = s.loadingMessageIndex ∨
    (step s e).loadingMessageIndex = 0 ∨
    (step s e).loadingMessageIndex =
      (s.loadingMessageIndex + 1) % loadingMessages.length := by
  cases e with
  | uploadDoor file nowId token => exact Or.inl rfl
  | selectPredefined idx o =>
    cases h : predefinedDoors[idx]? with
    | none => left; simp only [step, h]
    | some door =>
      left
      simp only [step, h]
      exact handleSelectPredefinedDoor_preserves s door o
  | setScene file => exact Or.inl rfl
  | doorDrop p r o n => exact Or.inl (handleDoorDrop_preserves s p r o n).2
  | reset => exact Or.inl rfl
  | changeDoor => exact Or.inl rfl
  | changeScene => exact Or.inl rfl
  | touchStart x y => exact Or.inl (handleTouchStart_preserves s x y).2
  | touchMove x y dz => exact Or.inl (handleTouchMove_preserves s x y dz).2
  | touchEnd x y env => exact Or.inl (handleTouchEnd_preserves s x y env).2
  | loadingEffectStart =>
    simp only [step]
    split
    · exact Or.inr (Or.inl rfl)
    · exact Or.inl rfl
  | loadingTick =>
    simp only [step]
    split
    · exact Or.inr (Or.inr rfl)
    · exact Or.inl rfl
  | openAddModal => exact Or.inl rfl
  | closeAddModal => exact Or.inl rfl
  | openDebugModal => exact Or.inl rfl
  | closeDebugModal => exact Or.inl rfl

theorem reachable_loadingMessageIndex_lt {s : AppState} (hs : Reachable s) :
    s.loadingMessageIndex < loadingMessages.length := by
  induction hs with
  | init => decide
  | next hs e ih =>
    rcases step_loadingMessageIndex _ e with h | h | h <;> rw [h]
    · exact ih
    · decide
    · exact Nat.mod_lt _ (by decide)

/-- C9: the loading message index starts at 0, the effect resets it to 0
when a generation starts and each interval tick advances it by
(previous + 1) mod 6, and in every reachable state it indexes into the
six loading messages, so the displayed message is always defined. -/
theorem loading_message_index_always_valid (s : AppState) (hs : Reachable s) :
    initialState.loadingMessageIndex = 0 ∧
    ((s.isLoading && s.sceneImage.isSome) = true →
      (step s Event.loadingEffectStart).loadingMessageIndex = 0 ∧
      (step s Event.loadingTick).loadingMessageIndex =
        (s.loadingMessageIndex + 1) % loadingMessages.length) ∧
    s.loadingMessageIndex < loadingMessages.length ∧
    loadingMessages[s.loadingMessageIndex]?.isSome = true := by
  refine ⟨rfl, ?eff, reachable_loadingMessageIndex_lt hs, ?msg⟩
  case eff =>
    intro h
    constructor <;> simp [step, h]
  case msg =>
    have hlt := reachable_loadingMessageIndex_lt hs
    simp [List.getElem?_eq_getElem hlt]

/-- Witness for C9 at the initial state. -/
theorem loading_message_index_always_valid_witness :
    initialState.loadingMessageIndex < loadingMessages.length ∧
    loadingMessages[initialState.loadingMessageIndex]?.isSome = true :=
  ⟨(loading_message_index_always_valid initialState Reachable.init).2.2.1,
   (loading_message_index_always_valid initialState Reachable.init).2.2.2⟩

theorem startsWithStr_createObjectURL (token : Nat) :
    startsWithStr (createObjectURL token) "blob:" = true := by
  have hdata : (createObjectURL token).toList =
      "blob:".toList ++ (toString token).toList := rfl
  simp only [startsWithStr, hdata]
  rw [show ("blob:".toList.length) = 5 from rfl,
      show ("blob:".toList) = ['b', 'l', 'o', 'b', ':'] from rfl]
  simp

theorem reachable_selectedDoor_url {s : AppState} (hs : Reachable s) :
    ∀ d : Door, s.selectedDoor = some d →
      d.imageUrl ∈ predefinedUrls ∨ startsWithStr d.imageUrl "blob:" = true := by
  induction hs with
  | init => intro d hd; simp [initialState] at hd
  | @next t hs e ih =>
    intro d hd
    cases e with
    | uploadDoor file nowId token =>
      simp only [step, handleDoorImageUpload, Option.some.injEq] at hd
      right
      rw [← hd]
      exact startsWithStr_createObjectURL token
    | selectPredefined idx o =>
      rcases h : predefinedDoors[idx]? with _ | door
      · simp only [step, h] at hd
        exact ih d hd
      · simp only [step, h] at hd
        rcases handleSelectPredefinedDoor_selectedDoor t door o with heq | heq
        · rw [heq] at hd; exact ih d hd
        · rw [heq] at hd
          injection hd with hd
          subst hd
          left
          have hmem : door ∈ predefinedDoors := by
            rcases List.getElem?_eq_some.mp h with ⟨hlt, hget⟩
            exact hget ▸ List.getElem_mem hlt
          exact List.mem_map_of_mem _ hmem
    | setScene file => exact ih d hd
    | doorDrop p r o n =>
      rw [show (step t (Event.doorDrop p r o n)).selectedDoor = t.selectedDoor
            from (handleDoorDrop_preserves t p r o n).1] at hd
      exact ih d hd
    | reset => simp [step, handleReset] at hd
    | changeDoor => simp [step, handleChangeDoor] at hd
    | changeScene => exact ih d hd
    | touchStart x y =>
      rw [show (step t (Event.touchStart x y)).selectedDoor = t.selectedDoor
            from (handleTouchStart_preserves t x y).1] at hd
      exact ih d hd
    | touchMove x y dz =>
      rw [show (step t (Event.touchMove x y dz)).selectedDoor = t.selectedDoor
            from (handleTouchMove_preserves t x y dz).1] at hd
      exact ih d hd
    | touchEnd x y env =>
      rw [show (step t (Event.touchEnd x y env)).selectedDoor = t.selectedDoor
            from (handleTouchEnd_preserves t x y env).1] at hd
      exact ih d hd
    | loadingEffectStart =>
      simp only [step] at hd
      split at hd <;> exact ih d hd
    | loadingTick =>
      simp only [step] at hd
      split at hd <;> exact ih d hd
    | openAddModal => exact ih d hd
    | closeAddModal => exact ih d hd
    | openDebugModal => exact ih d hd
    | closeDebugModal => exact ih d hd

/-- C4: a Door consists of exactly its id, name and imageUrl, and the
selected door of any reachable state has as imageUrl either one of the
five predefined static asset paths or a locally created blob URL. -/
theorem selected_door_shape_and_url (s : AppState) (hs : Reachable s)
    (d : Door) (hd : s.selectedDoor = some d) :
    d = ⟨d.id, d.name, d.imageUrl⟩ ∧
    (d.imageUrl ∈ predefinedUrls ∨ startsWithStr d.imageUrl "blob:" = true) :=
  ⟨rfl, reachable_selectedDoor_url hs d hd⟩

/-- Witness for C4: the state reached by uploading a custom door. -/
theorem selected_door_shape_and_url_witness :
    (⟨5, "f.jpg", "blob:42"⟩ : Door) = ⟨5, "f.jpg", "blob:42"⟩ ∧
    (("blob:42" : String) ∈ predefinedUrls ∨
      startsWithStr "blob:42" "blob:" = true) :=
  selected_door_shape_and_url
    (step initialState (Event.uploadDoor ⟨"f.jpg", "image/jpeg", [1]⟩ 5 42))
    (Reachable.next Reachable.init _) ⟨5, "f.jpg", "blob:42"⟩ (by decide)

/-! ### dataURLtoFile (C8) -/

/-- Counterexample to C8 as stated: `data:image/png;base64,!!` has a
comma-separated payload and a parseable MIME type, yet `dataURLtoFile`
still throws, because `atob` rejects the non-base64 payload.  Throwing
is therefore not restricted to the two conditions the claim names. -/
theorem dataURLtoFile_not_only_header_failures :
    (splitAtCommas ("data:image/png;base64,!!".toList)).length = 2 ∧
    parseMime "data:image/png;base64" = some "image/png" ∧
    dataURLtoFile "data:image/png;base64,!!" "f.png" =
      Except.error "InvalidCharacterError" := by decide

/-- C8 amended: `dataURLtoFile` throws exactly when the input has no
comma-separated payload, or no nonempty `:<mime>;` match in the
header, or a payload that is not forgiving-base64; on every well-formed
data URL (valid base64 payload included) it returns a File carrying the
given filename, the parsed MIME type, and the base64 decoding of the
segment after the first comma. -/
theorem dataURLtoFile_characterization (dataurl filename : String) :
    ((∃ f : File, dataURLtoFile dataurl filename = Except.ok f) ↔
      (2 ≤ (splitAtCommas dataurl.toList).length ∧
       (∃ m : String,
          parseMimeList ((splitAtCommas dataurl.toList).headD []) = some m ∧
          m ≠ "") ∧
       (atob (String.mk ((splitAtCommas dataurl.toList).getD 1 []))).isSome =
         true)) ∧
    (∀ f : File, dataURLtoFile dataurl filename = Except.ok f →
      f.name = filename ∧
      parseMimeList ((splitAtCommas dataurl.toList).headD []) = some f.type ∧
      atob (String.mk ((splitAtCommas dataurl.toList).getD 1 [])) =
        some f.content) := by
  constructor
  · constructor
    · rintro ⟨f, hf⟩
      dsimp only [dataURLtoFile] at hf
      split at hf
      · cases hf
      · rename_i hlen
        refine ⟨Nat.le_of_not_lt hlen, ?_⟩
        split at hf
        · cases hf
        · rename_i m hm
          split at hf
          · cases hf
          · rename_i hne
            refine ⟨⟨m, hm, hne⟩, ?_⟩
            split at hf
            · cases hf
            · rename_i bs hb
              simp only [List.getD, List.get?_eq_getElem?, String.toList]
                at hb ⊢
              simp [hb]
    · rintro ⟨hlen, ⟨m, hm, hne⟩, hb⟩
      obtain ⟨bs, hbs⟩ := Option.isSome_iff_exists.mp hb
      refine ⟨⟨filename, m, bs⟩, ?_⟩
      dsimp only [dataURLtoFile]
      rw [if_neg (Nat.not_lt.mpr hlen), hm]
      dsimp only
      rw [if_neg hne, hbs]
  · intro f hf
    dsimp only [dataURLtoFile] at hf
    split at hf
    · cases hf
    · split at hf
      · cases hf
      · rename_i m hm
        split at hf
        · cases hf
        · split at hf
          · cases hf
          · rename_i bs hb
            cases hf
            exact ⟨rfl, hm, hb⟩

/-- Witness for C8 (amended) at a concrete well-formed data URL. -/
theorem dataURLtoFile_characterization_witness :
    (dataURLtoFile "data:image/jpeg;base64,AAEC" "f.jpg" =
        Except.ok ⟨"f.jpg", "image/jpeg", [0, 1, 2]⟩) ∧
    ("f.jpg" : String) = "f.jpg" ∧
    parseMimeList
        ((splitAtCommas ("data:image/jpeg;base64,AAEC".toList)).headD []) =
      some "image/jpeg" ∧
    atob (String.mk
        ((splitAtCommas ("data:image/jpeg;base64,AAEC".toList)).getD 1 [])) =
      some [0, 1, 2] :=
  ⟨by decide,
   (dataURLtoFile_characterization "data:image/jpeg;base64,AAEC" "f.jpg").2
     ⟨"f.jpg", "image/jpeg", [0, 1, 2]⟩ (by decide)⟩

/-! ### Touch-drop geometry (C1) -/

theorem renderedSize_pos_le (nw nh cw ch : ℚ) (hnw : 0 < nw) (hnh : 0 < nh)
    (hcw : 0 < cw) (hch : 0 < ch) :
    0 < (renderedSize nw nh cw ch).1 ∧ 0 < (renderedSize nw nh cw ch).2 ∧
    (renderedSize nw nh cw ch).1 ≤ cw ∧ (renderedSize nw nh cw ch).2 ≤ ch ∧
    (renderedSize nw nh cw ch).1 / (renderedSize nw nh cw ch).2 = nw / nh := by
  have har : 0 < nw / nh := div_pos hnw hnh
  unfold renderedSize
  dsimp only
  split
  · rename_i hgt
    refine ⟨hcw, div_pos hcw har, le_refl cw, ?_, ?_⟩
    · rw [div_le_iff₀ har]
      rw [div_lt_iff₀ hch] at hgt
      linarith
    · rw [div_div_eq_mul_div, mul_comm, mul_div_assoc, div_self (ne_of_gt hcw),
          mul_one]
  · rename_i hle
    refine ⟨mul_pos hch har, hch, ?_, le_refl ch, ?_⟩
    · rw [not_lt] at hle
      rw [le_div_iff₀ hch] at hle
      linarith [hle]
    · rw [mul_comm, mul_div_assoc, div_self (ne_of_gt hch), mul_one]

theorem renderedSize_maximal (nw nh cw ch w h : ℚ) (hnw : 0 < nw) (hnh : 0 < nh)
    (hcw : 0 < cw) (hch : 0 < ch) (hh : 0 < h) (hr : w / h = nw / nh)
    (hwle : w ≤ cw) (hhle : h ≤ ch) : w ≤ (renderedSize nw nh cw ch).1 := by
  have har : 0 < nw / nh := div_pos hnw hnh
  have hw : w = nw / nh * h := (div_eq_iff (ne_of_gt hh)).mp hr
  unfold renderedSize
  dsimp only
  split
  · exact hwle
  · rw [hw, mul_comm]
    exact mul_le_mul_of_nonneg_right hhle (le_of_lt har)

/-- The drop point lies inside the centered rendered-image rectangle
(the largest aspect-ratio-preserving rectangle fitting the container,
offset by half the leftover container space in each direction). -/
def InsideRendered (nw nh cw ch cx cy rl rt : ℚ) : Prop :=
  (cw - (renderedSize nw nh cw ch).1) / 2 ≤ cx - rl ∧
  cx - rl ≤ (cw - (renderedSize nw nh cw ch).1) / 2 +
    (renderedSize nw nh cw ch).1 ∧
  (ch - (renderedSize nw nh cw ch).2) / 2 ≤ cy - rt ∧
  cy - rt ≤ (ch - (renderedSize nw nh cw ch).2) / 2 +
    (renderedSize nw nh cw ch).2

theorem touchDropForward_isSome_iff (nw nh cw ch cx cy rl rt : ℚ) :
    (touchDropForward nw nh cw ch cx cy rl rt).isSome = true ↔
      InsideRendered nw nh cw ch cx cy rl rt := by
  unfold touchDropForward InsideRendered
  dsimp only
  split
  · rename_i hcond
    push_neg at hcond
    obtain ⟨h1, h2, h3, h4⟩ := hcond
    exact iff_of_true rfl ⟨by linarith, by linarith, by linarith, by linarith⟩
  · rename_i hcond
    rw [not_not] at hcond
    refine iff_of_false (by simp) ?_
    rintro ⟨h1, h2, h3, h4⟩
    rcases hcond with h | h | h | h <;> linarith

theorem touchDropForward_bounds (nw nh cw ch cx cy rl rt : ℚ)
    (hnw : 0 < nw) (hnh : 0 < nh) (hcw : 0 < cw) (hch : 0 < ch) :
    ∀ p : ℚ × ℚ, touchDropForward nw nh cw ch cx cy rl rt = some p →
      0 ≤ p.1 ∧ p.1 ≤ 100 ∧ 0 ≤ p.2 ∧ p.2 ≤ 100 := by
  intro p hp
  obtain ⟨hw1, hh1, _, _, _⟩ := renderedSize_pos_le nw nh cw ch hnw hnh hcw hch
  unfold touchDropForward at hp
  dsimp only at hp
  split at hp
  · rename_i hcond
    push_neg at hcond
    obtain ⟨h1, h2, h3, h4⟩ := hcond
    cases hp
    have hx1 : (cx - rl - (cw - (renderedSize nw nh cw ch).1) / 2) /
        (renderedSize nw nh cw ch).1 ≤ 1 := (div_le_one hw1).mpr h2
    have hy1 : (cy - rt - (ch - (renderedSize nw nh cw ch).2) / 2) /
        (renderedSize nw nh cw ch).2 ≤ 1 := (div_le_one hh1).mpr h4
    have hx0 : 0 ≤ (cx - rl - (cw - (renderedSize nw nh cw ch).1) / 2) /
        (renderedSize nw nh cw ch).1 := div_nonneg h1 (le_of_lt hw1)
    have hy0 : 0 ≤ (cy - rt - (ch - (renderedSize nw nh cw ch).2) / 2) /
        (renderedSize nw nh cw ch).2 := div_nonneg h3 (le_of_lt hh1)
    refine ⟨by positivity, by nlinarith, by positivity, by nlinarith⟩
  · cases hp

/-- The full geometric specification of a touch drop over the scene
drop zone: the forwarded call of `handleTouchEnd`, the rendered box as
the largest aspect-ratio-preserving rectangle fitting the container
(with the claim's two case formulas), forwarding exactly for points
inside the centered rectangle, and forwarded percentages in [0, 100]. -/
def TouchDropGeomSpec (s : AppState) (rect : Rect) (nw nh cx cy : ℚ) : Prop :=
  ((handleTouchEnd s cx cy ⟨some rect, some (nw, nh)⟩).2 =
    (touchDropForward nw nh rect.width rect.height cx cy
        rect.left rect.top).map
      (fun rel => ((cx - rect.left, cy - rect.top), rel))) ∧
  (0 < (renderedSize nw nh rect.width rect.height).1 ∧
   0 < (renderedSize nw nh rect.width rect.height).2 ∧
   (renderedSize nw nh rect.width rect.height).1 ≤ rect.width ∧
   (renderedSize nw nh rect.width rect.height).2 ≤ rect.height ∧
   (renderedSize nw nh rect.width rect.height).1 /
     (renderedSize nw nh rect.width rect.height).2 = nw / nh) ∧
  (∀ w h : ℚ, 0 < h → w / h = nw / nh → w ≤ rect.width → h ≤ rect.height →
    w ≤ (renderedSize nw nh rect.width rect.height).1) ∧
  (rect.width / rect.height < nw / nh →
    (renderedSize nw nh rect.width rect.height).1 = rect.width ∧
    (renderedSize nw nh rect.width rect.height).2 = rect.width / (nw / nh)) ∧
  (¬ rect.width / rect.height < nw / nh →
    (renderedSize nw nh rect.width rect.height).2 = rect.height ∧
    (renderedSize nw nh rect.width rect.height).1 = rect.height * (nw / nh)) ∧
  ((touchDropForward nw nh rect.width rect.height cx cy
      rect.left rect.top).isSome = true ↔
    InsideRendered nw nh rect.width rect.height cx cy rect.left rect.top) ∧
  (∀ p : ℚ × ℚ,
    touchDropForward nw nh rect.width rect.height cx cy rect.left rect.top =
      some p →
    0 ≤ p.1 ∧ p.1 ≤ 100 ∧ 0 ≤ p.2 ∧ p.2 ≤ 100)

/-- C1: for every touch drop processed by handleTouchEnd over the scene
drop zone, the rendered bounding box is the largest
aspect-ratio-preserving rectangle fitting the container (with the
stated width/height case formulas and centering offsets), the drop is
forwarded to the placement handler exactly when the touch point lies
inside that rectangle, and the forwarded percentage coordinates lie in
[0, 100]. -/
theorem touch_drop_geometry (s : AppState) (rect : Rect) (nw nh cx cy : ℚ)
    (hdrag : s.isTouchDragging = true) (hnw : 0 < nw) (hnh : 0 < nh)
    (hcw : 0 < rect.width) (hch : 0 < rect.height) :
    TouchDropGeomSpec s rect nw nh cx cy := by
  refine ⟨?call, renderedSize_pos_le nw nh rect.width rect.height hnw hnh hcw hch,
    fun w h hh hr hwle hhle =>
      renderedSize_maximal nw nh rect.width rect.height w h hnw hnh hcw hch
        hh hr hwle hhle,
    ?caseWide, ?caseTall,
    touchDropForward_isSome_iff nw nh rect.width rect.height cx cy
      rect.left rect.top,
    touchDropForward_bounds nw nh rect.width rect.height cx cy
      rect.left rect.top hnw hnh hcw hch⟩
  case call => simp [handleTouchEnd, hdrag]
  case caseWide =>
    intro hgt
    unfold renderedSize
    dsimp only
    rw [if_pos hgt]
    exact ⟨rfl, rfl⟩
  case caseTall =>
    intro hle
    unfold renderedSize
    dsimp only
    rw [if_neg hle]
    exact ⟨rfl, rfl⟩

/-- Witness for C1: a 4:3 image dropped at (1, 2) over a 2-by-3
container at the origin. -/
theorem touch_drop_geometry_witness :
    TouchDropGeomSpec { initialState with isTouchDragging := true }
      ⟨0, 0, 2, 3⟩ 4 3 1 2 :=
  touch_drop_geometry { initialState with isTouchDragging := true }
    ⟨0, 0, 2, 3⟩ 4 3 1 2 rfl (by decide) (by decide) (by decide) (by decide)

end DoorApp
